import Mathlib

/-!
Shallow embedding of the verda-cloud-mcp core (src/verda_mcp/client.py and
src/verda_mcp/server.py) and proofs about its availability-monitoring,
capacity-probing, lifecycle-wait, create-precondition and delete-confirmation
behaviour.

Remote calls (the provider SDK) are modelled as oracle functions passed in as
arguments, and the observable side effects (probe calls, sleeps, instance
reads, API actions) are made explicit as returned traces/counters.
-/

namespace VerdaMcp

/-!
## Resource resolver (client.py, get_instance_type_from_gpu_type_and_count)
-/

/-- The fixed GPU-type/count lookup table from
`get_instance_type_from_gpu_type_and_count` in client.py, as an association
list keyed first by GPU type string, then by GPU count. -/
def gpuMapping : List (String × List (Nat × String)) :=
  [("B300", [(1, "1B300.30V"), (2, "2B300.60V"), (4, "4B300.120V"),
             (8, "8B300.240V")]),
   ("B200", [(1, "1B200.30V"), (2, "2B200.60V"), (4, "4B200.120V"),
             (8, "8B200.240V")]),
   ("GB300", [(1, "1GB300.36V"), (2, "2GB300.72V"), (4, "4GB300.144V")]),
   ("H200", [(1, "1H200.141S.44V")])]

/-- Embedding of Python `str.upper()` (ASCII; the table keys are ASCII). -/
def py_upper (s : String) : String :=
  ⟨s.data.map Char.toUpper⟩

/-- Embedding of `get_instance_type_from_gpu_type_and_count(gpu_type,
gpu_count)`: `mapping.get(gpu_type.upper(), \x7b\x7d).get(gpu_count, "")`. -/
def get_instance_type_from_gpu_type_and_count
    (gpu_type : String) (gpu_count : Nat) : String :=
  ((((gpuMapping.lookup (py_upper gpu_type)).getD []).lookup gpu_count).getD "")

/-! Auxiliary facts about `Char.toUpper` used for the case-insensitivity
claim. -/

theorem char_toNat_ofNat (n : Nat) (h : n < 0xd800) :
    (Char.ofNat n).toNat = n := by
  rw [Char.ofNat, dif_pos (Or.inl h)]
  simp [Char.ofNatAux, Char.toNat, UInt32.ofNat', UInt32.toNat,
    BitVec.toNat_ofNatLt]

theorem char_toUpper_toUpper (c : Char) : c.toUpper.toUpper = c.toUpper := by
  unfold Char.toUpper
  by_cases h : c.toNat ≥ 97 ∧ c.toNat ≤ 122
  · rw [if_pos h]
    have hv : c.toNat - 32 < 0xd800 := by omega
    rw [if_neg]
    rw [char_toNat_ofNat _ hv]
    omega
  · rw [if_neg h, if_neg h]

theorem py_upper_idem (s : String) : py_upper (py_upper s) = py_upper s := by
  unfold py_upper
  simp [List.map_map, Function.comp_def, char_toUpper_toUpper]

/-!
## Capacity prober (client.py, check_spot_availability)
-/

/-- Result of one remote `instances.is_available(instance_type, is_spot, loc)`
call: either a boolean answer, or a raised transport exception. -/
inductive ProbeOutcome
  | ok (b : Bool)
  | err
deriving DecidableEq, Repr

/-- Embedding of the `AvailabilityResult` dataclass from client.py. -/
structure AvailabilityResult where
  available : Bool
  location : String
  instance_type : String
  gpu_type : String
  gpu_count : Nat
deriving DecidableEq, Repr

/-- The fixed candidate location list `LOCATION_CODES` from client.py. -/
def LOCATION_CODES : List String := ["FIN-01", "FIN-02", "FIN-03"]

/-- The location loop of `check_spot_availability`: try each location in
order; a raised exception (`ProbeOutcome.err`) is caught and the loop
continues; return on the first `True`. Returns the ordered list of locations
actually probed together with the first location found available, if any. -/
def scanLocations (probe : String → ProbeOutcome) :
    List String → List String × Option String
  | [] => ([], none)
  | loc :: rest =>
    match probe loc with
    | ProbeOutcome.ok true => ([loc], some loc)
    | _ =>
      let t := scanLocations probe rest
      (loc :: t.1, t.2)

/-- Embedding of `VerdaSDKClient.check_spot_availability(gpu_type, gpu_count,
location)`. The remote `is_available` call is the oracle `probe` (instance
type, location ↦ outcome). Returns the result together with the ordered trace
of locations probed. -/
def check_spot_availability (gpu_type : String) (gpu_count : Nat)
    (location : Option String) (probe : String → String → ProbeOutcome) :
    AvailabilityResult × List String :=
  let instance_type := get_instance_type_from_gpu_type_and_count gpu_type gpu_count
  if instance_type = "" then
    (⟨false, "", "", gpu_type, gpu_count⟩, [])
  else
    let locations_to_check := match location with
      | some l => [l]
      | none => LOCATION_CODES
    let s := scanLocations (probe instance_type) locations_to_check
    match s.2 with
    | some loc => (⟨true, loc, instance_type, gpu_type, gpu_count⟩, s.1)
    | none => (⟨false, "", instance_type, gpu_type, gpu_count⟩, s.1)

/-- Replace a raised transport error by the answer "not available". The
source's `except Exception: continue` makes exactly this replacement. -/
def swallowErr (probe : String → ProbeOutcome) : String → ProbeOutcome :=
  fun l => match probe l with
  | ProbeOutcome.err => ProbeOutcome.ok false
  | o => o

/-!
## Availability monitor (server.py, monitor_spot_availability)
-/

/-- Observable events of one monitor run: an availability check (with its
1-based check number) or a sleep of a given duration in seconds. -/
inductive MonEvent
  | checkAt (n : Nat)
  | sleepFor (secs : Nat)
deriving DecidableEq, Repr

/-- The `for check_num in range(1, max_checks + 1)` loop body of
`monitor_spot_availability` in server.py, over the list of remaining check
numbers: perform the availability check; if available, stop (found); else
sleep `check_interval` seconds if `check_num < max_checks`, and continue.
Returns the ordered event trace and whether capacity was found. -/
def monitorLoop (avail : Nat → Bool) (check_interval max_checks : Nat) :
    List Nat → List MonEvent × Bool
  | [] => ([], false)
  | n :: rest =>
    if avail n then ([MonEvent.checkAt n], true)
    else
      let t := monitorLoop avail check_interval max_checks rest
      (MonEvent.checkAt n ::
        (if n < max_checks then MonEvent.sleepFor check_interval :: t.1 else t.1),
       t.2)

/-- Embedding of `monitor_spot_availability(gpu_type, gpu_count,
check_interval, max_checks)` from server.py, instrumented with its event
trace. Each check calls `check_spot_availability` with no pinned location;
`probeAt n` is the remote `is_available` oracle during check number `n`. -/
def monitor_spot_availability (gpu_type : String) (gpu_count : Nat)
    (probeAt : Nat → String → String → ProbeOutcome)
    (check_interval max_checks : Nat) : List MonEvent × Bool :=
  monitorLoop
    (fun n => (check_spot_availability gpu_type gpu_count none (probeAt n)).1.available)
    check_interval max_checks (List.range' 1 max_checks)

/-- Number of availability checks in a monitor event trace. -/
def countChecks (es : List MonEvent) : Nat :=
  es.countP (fun e => match e with | MonEvent.checkAt _ => true | _ => false)

/-- Number of sleep events in a monitor event trace (of any duration). -/
def countSleeps (es : List MonEvent) : Nat :=
  es.countP (fun e => match e with | MonEvent.sleepFor _ => true | _ => false)

/-!
## Instance lifecycle wait (client.py, wait_for_ready)
-/

/-- Outcome of a `wait_for_ready` run: returned the instance read at 0-based
read index `idx`; raised RuntimeError on a terminal-failure status; raised
TimeoutError; or (never reachable with a positive poll interval) the fuel ran
out. -/
inductive WaitOutcome
  | ready (idx : Nat)
  | errorState (st : String)
  | timedOut
  | outOfFuel
deriving DecidableEq, Repr

/-- Observable summary of a `wait_for_ready` run: its outcome, the number of
instance reads performed and the number of `poll_interval` sleeps
performed. -/
structure WaitRun where
  outcome : WaitOutcome
  numReads : Nat
  numSleeps : Nat
deriving DecidableEq, Repr

/-- The terminal-failure status test `status in ("error", "failed",
"terminated")` from `wait_for_ready`. -/
def isTerminalError (st : String) : Bool :=
  st = "error" || st = "failed" || st = "terminated"

/-- The `while elapsed < timeout` loop of `wait_for_ready` in client.py.
`reads i` is the status string returned by the i-th (0-based) `get_instance`
read; `elapsed`, `r`, `s` are the elapsed-seconds accumulator and the
read/sleep counters at loop entry; the final argument is fuel, which never
runs out when `0 < poll` (each iteration adds `poll ≥ 1` to `elapsed`, and
the loop runs only while `elapsed < timeout`). -/
def waitLoop (reads : Nat → String) (timeout poll : Nat) :
    Nat → Nat → Nat → Nat → WaitRun
  | _elapsed, r, s, 0 => ⟨WaitOutcome.outOfFuel, r, s⟩
  | elapsed, r, s, fuel + 1 =>
    if elapsed < timeout then
      let st := reads r
      if st = "running" then ⟨WaitOutcome.ready r, r + 1, s⟩
      else if isTerminalError st then ⟨WaitOutcome.errorState st, r + 1, s⟩
      else waitLoop reads timeout poll (elapsed + poll) (r + 1) (s + 1) fuel
    else ⟨WaitOutcome.timedOut, r, s⟩

/-- Embedding of `wait_for_ready(instance_id, timeout, poll_interval)`:
start with `elapsed = 0` and no reads/sleeps performed. -/
def wait_for_ready (reads : Nat → String) (timeout poll : Nat) : WaitRun :=
  waitLoop reads timeout poll 0 0 0 (timeout + 1)

/-!
## Instance creation (client.py, create_instance) and the delete tool
(server.py, delete_instance)
-/

/-- The keyword arguments `create_instance` passes to the provider
`instances.create` call. -/
structure CreateKwargs where
  instance_type : String
  image : String
  hostname : String
  description : String
  ssh_key_ids : List String
  location : String
  is_spot : Bool
  existing_volumes : Option (List String)
  startup_script_id : Option String
deriving DecidableEq, Repr

/-- Remote provider-API calls observable at the client boundary. -/
inductive ApiCall
  | listSSHKeys
  | createInstance (kw : CreateKwargs)
  | instanceAction (instance_id : String) (action : String)
deriving DecidableEq, Repr

/-- Caller-omittable defaults read from config (`config.defaults`): GPU
type/count, location, image and the hostname prefix `hp`. -/
structure DefaultsCfg where
  gpu_type : String
  gpu_count : Nat
  location : String
  image : String
  hp : String
deriving DecidableEq, Repr

/-- Python `x or d` for an optional string argument: `None` and `""` are
falsy and select the default. -/
def py_or_str (v : Option String) (d : String) : String :=
  match v with
  | some s => if s = "" then d else s
  | none => d

/-- Python `x or d` for an optional integer argument: `None` and `0` are
falsy and select the default. -/
def py_or_nat (v : Option Nat) (d : Nat) : Nat :=
  match v with
  | some n => if n = 0 then d else n
  | none => d

/-- Embedding of `VerdaSDKClient.create_instance`. `ssh_keys` is the list of
SSH key ids the remote `ssh_keys.get` call would return. Returns either the
kwargs of the issued `instances.create` call or the raised ValueError
message, together with the ordered trace of remote calls performed. -/
def create_instance (dft : DefaultsCfg) (ssh_keys : List String)
    (gpu_type0 : Option String) (gpu_count0 : Option Nat)
    (location0 image0 hostname0 : Option String)
    (volume_ids : Option (List String)) (script_id : Option String)
    (is_spot : Bool) (description : String) :
    Except String CreateKwargs × List ApiCall :=
  let gpu_type := py_or_str gpu_type0 dft.gpu_type
  let gpu_count := py_or_nat gpu_count0 dft.gpu_count
  let location := py_or_str location0 dft.location
  let image := py_or_str image0 dft.image
  let instance_type := get_instance_type_from_gpu_type_and_count gpu_type gpu_count
  if instance_type = "" then
    (Except.error ("Unknown instance type for " ++ gpu_type ++ " x" ++
      toString gpu_count), [])
  else if ssh_keys.isEmpty then
    (Except.error "No SSH keys found. Please add one in the Verda console.",
     [ApiCall.listSSHKeys])
  else
    let kw : CreateKwargs :=
      { instance_type := instance_type
        image := image
        hostname := py_or_str hostname0 (dft.hp ++ "-" ++ toString gpu_count)
        description := description
        ssh_key_ids := ssh_keys
        location := location
        is_spot := is_spot
        existing_volumes := match volume_ids with
          | some vs => if vs.isEmpty then none else some vs
          | none => none
        startup_script_id := match script_id with
          | some sid => if sid = "" then none else some sid
          | none => none }
    (Except.ok kw, [ApiCall.listSSHKeys, ApiCall.createInstance kw])

/-- The default hostname computed by the `deploy_spot_instance` tool in
server.py when the caller omits it: the configured prefix joined with the
`%Y%m%d-%H%M%S` timestamp string `ts` read from the wall clock. -/
def deploy_default_hostname (hp ts : String) (hostname0 : Option String) :
    String :=
  py_or_str hostname0 (hp ++ "-" ++ ts)

/-- Embedding of the `delete_instance` MCP tool from server.py: with
`confirm = False` (the default) it returns the safety-check message and
performs no API call; with `confirm = True` it issues the provider delete
action. Returns the tool reply and the trace of API calls. -/
def delete_instance (instance_id : String) (confirm : Bool) :
    String × List ApiCall :=
  if confirm = false then
    ("**Safety Check**: To delete an instance, you must set confirm=True.\n" ++
       "Are you sure you want to delete instance `" ++ instance_id ++ "`?",
     [])
  else
    ("Instance `" ++ instance_id ++ "` has been deleted.",
     [ApiCall.instanceAction instance_id "delete"])

/-!
## Helper lemmas about the monitor loop
-/

theorem monitorLoop_found_head (avail : Nat → Bool) (i N n : Nat)
    (rest : List Nat) (h : avail n = true) :
    monitorLoop avail i N (n :: rest) = ([MonEvent.checkAt n], true) := by
  simp [monitorLoop, h]

theorem monitorLoop_append (avail : Nat → Bool) (i N : Nat) (l₁ l₂ : List Nat)
    (h : ∀ n ∈ l₁, avail n = false) :
    monitorLoop avail i N (l₁ ++ l₂) =
      ((monitorLoop avail i N l₁).1 ++ (monitorLoop avail i N l₂).1,
       (monitorLoop avail i N l₂).2) := by
  induction l₁ with
  | nil => simp [monitorLoop]
  | cons n rest ih =>
    have hn : avail n = false := h n (List.mem_cons_self _ _)
    have hrest : ∀ m ∈ rest, avail m = false :=
      fun m hm => h m (List.mem_cons_of_mem _ hm)
    by_cases hlt : n < N <;>
      simp [monitorLoop, hn, hlt, ih hrest]

theorem monitorLoop_all_false (avail : Nat → Bool) (i N : Nat)
    (l : List Nat) (h : ∀ n ∈ l, avail n = false) :
    countChecks (monitorLoop avail i N l).1 = l.length ∧
    countSleeps (monitorLoop avail i N l).1 =
      l.countP (fun n => decide (n < N)) ∧
    (monitorLoop avail i N l).2 = false := by
  induction l with
  | nil => simp [monitorLoop, countChecks, countSleeps]
  | cons n rest ih =>
    have hn : avail n = false := h n (List.mem_cons_self _ _)
    have hrest : ∀ m ∈ rest, avail m = false :=
      fun m hm => h m (List.mem_cons_of_mem _ hm)
    obtain ⟨ih1, ih2, ih3⟩ := ih hrest
    by_cases hlt : n < N <;>
      simp [monitorLoop, hn, hlt, countChecks, countSleeps,
        List.countP_cons, ih1, ih2, ih3] at * <;>
      omega

theorem monitorLoop_cons_false (avail : Nat → Bool) (i N n : Nat)
    (rest : List Nat) (hn : avail n = false) :
    monitorLoop avail i N (n :: rest) =
      (MonEvent.checkAt n :: ((if n < N then [MonEvent.sleepFor i] else []) ++
          (monitorLoop avail i N rest).1),
       (monitorLoop avail i N rest).2) := by
  by_cases hlt : n < N <;> simp [monitorLoop, hn, hlt]

theorem monitorLoop_events (avail : Nat → Bool) (i N : Nat) (l : List Nat) :
    ∀ e ∈ (monitorLoop avail i N l).1,
      (∃ m, e = MonEvent.checkAt m) ∨ e = MonEvent.sleepFor i := by
  induction l with
  | nil => simp [monitorLoop]
  | cons n rest ih =>
    intro e he
    by_cases hn : avail n
    · rw [monitorLoop_found_head avail i N n rest hn] at he
      simp at he
      exact Or.inl ⟨n, he⟩
    · rw [monitorLoop_cons_false avail i N n rest (by simpa using hn)] at he
      simp only [List.mem_cons, List.mem_append] at he
      rcases he with rfl | he | he
      · exact Or.inl ⟨n, rfl⟩
      · by_cases hlt : n < N
        · simp [hlt] at he
          exact Or.inr he
        · simp [hlt] at he
      · exact ih e he

theorem monitorLoop_ne_nil (avail : Nat → Bool) (i N n : Nat)
    (rest : List Nat) : (monitorLoop avail i N (n :: rest)).1 ≠ [] := by
  by_cases hn : avail n
  · rw [monitorLoop_found_head avail i N n rest hn]
    simp
  · rw [monitorLoop_cons_false avail i N n rest (by simpa using hn)]
    simp

theorem monitorLoop_getLast (avail : Nat → Bool) (i N : Nat) :
    ∀ l : List Nat, l.getLast? = some N →
      ∃ m, ((monitorLoop avail i N l).1).getLast? = some (MonEvent.checkAt m) := by
  intro l
  induction l with
  | nil => intro h; simp at h
  | cons n rest ih =>
    intro hlast
    by_cases hn : avail n
    · exact ⟨n, by rw [monitorLoop_found_head avail i N n rest hn]; rfl⟩
    · cases rest with
      | nil =>
        have hnN : n = N := by simpa using hlast
        refine ⟨n, ?_⟩
        rw [monitorLoop_cons_false avail i N n [] (by simpa using hn)]
        have hlt : ¬ n < N := by omega
        simp [monitorLoop, hlt]
      | cons m rest2 =>
        have hlast2 : (m :: rest2).getLast? = some N := by
          simpa [List.getLast?_cons_cons] using hlast
        obtain ⟨m0, hm0⟩ := ih hlast2
        refine ⟨m0, ?_⟩
        rw [monitorLoop_cons_false avail i N n (m :: rest2) (by simpa using hn)]
        have hX : (((if n < N then [MonEvent.sleepFor i] else []) ++
            (monitorLoop avail i N (m :: rest2)).1)).getLast? =
            some (MonEvent.checkAt m0) := by
          rw [List.getLast?_append, hm0]
          rfl
        have hcons : MonEvent.checkAt n ::
            ((if n < N then [MonEvent.sleepFor i] else []) ++
              (monitorLoop avail i N (m :: rest2)).1) =
            [MonEvent.checkAt n] ++
            ((if n < N then [MonEvent.sleepFor i] else []) ++
              (monitorLoop avail i N (m :: rest2)).1) := rfl
        rw [hcons, List.getLast?_append, hX]
        rfl

/-! Facts about the check-number list `List.range' 1 N`. -/

theorem range'_one_getLast (N : Nat) (hN : 1 ≤ N) :
    (List.range' 1 N).getLast? = some N := by
  have h : N = (N - 1) + 1 := by omega
  rw [h, List.range'_1_concat, List.getLast?_concat]
  congr 1
  omega

theorem range'_one_mem_bounds {n s N : Nat} (h : n ∈ List.range' s N) :
    s ≤ n ∧ n < s + N := by
  obtain ⟨j, hj, rfl⟩ := List.mem_range'.1 h
  omega

theorem range'_one_countP_le (s M b : Nat) (hb : s + M ≤ b) :
    (List.range' s M).countP (fun n => decide (n < b)) = M := by
  have h1 : (List.range' s M).countP (fun n => decide (n < b)) =
      (List.range' s M).length :=
    List.countP_eq_length.mpr (by
      intro a ha
      have := range'_one_mem_bounds ha
      simp only [decide_eq_true_eq]
      omega)
  rw [h1, List.length_range']

theorem range'_one_countP_lt (N : Nat) (hN : 1 ≤ N) :
    (List.range' 1 N).countP (fun n => decide (n < N)) = N - 1 := by
  obtain ⟨M, rfl⟩ : ∃ M, N = M + 1 := ⟨N - 1, by omega⟩
  rw [List.range'_1_concat, List.countP_append,
    range'_one_countP_le 1 M (M + 1) (by omega)]
  have h2 : ¬ (1 + M < M + 1) := by omega
  simp [h2]

/-- C1: monitor attempt and sleep accounting for
`monitor_spot_availability`. With a check budget of `N ≥ 1` and any sequence
of per-check availability outcomes, a run that never finds capacity performs
exactly `N` availability checks and exactly `N - 1` sleeps (every sleep event
has the configured interval duration) and reports not-found; if capacity is
first found on check `k ≤ N`, the run performs exactly `k` checks and `k - 1`
sleeps and reports found; and the last event of every such run is a check,
never a sleep. -/
theorem C1_monitor_attempt_accounting (gpu_type : String) (gpu_count : Nat)
    (probeAt : Nat → String → String → ProbeOutcome) (interval N : Nat)
    (hN : 1 ≤ N) :
    ((∀ n, (check_spot_availability gpu_type gpu_count none
          (probeAt n)).1.available = false) →
        countChecks (monitor_spot_availability gpu_type gpu_count probeAt
            interval N).1 = N ∧
        countSleeps (monitor_spot_availability gpu_type gpu_count probeAt
            interval N).1 = N - 1 ∧
        (monitor_spot_availability gpu_type gpu_count probeAt interval N).2 =
          false) ∧
    (∀ k, 1 ≤ k → k ≤ N →
        (check_spot_availability gpu_type gpu_count none
          (probeAt k)).1.available = true →
        (∀ j, 1 ≤ j → j < k →
          (check_spot_availability gpu_type gpu_count none
            (probeAt j)).1.available = false) →
        countChecks (monitor_spot_availability gpu_type gpu_count probeAt
            interval N).1 = k ∧
        countSleeps (monitor_spot_availability gpu_type gpu_count probeAt
            interval N).1 = k - 1 ∧
        (monitor_spot_availability gpu_type gpu_count probeAt interval N).2 =
          true) ∧
    (∀ e ∈ (monitor_spot_availability gpu_type gpu_count probeAt
        interval N).1,
      (∃ m, e = MonEvent.checkAt m) ∨ e = MonEvent.sleepFor interval) ∧
    (∃ m, (monitor_spot_availability gpu_type gpu_count probeAt
        interval N).1.getLast? = some (MonEvent.checkAt m)) := by
  set avail := fun n => (check_spot_availability gpu_type gpu_count none
    (probeAt n)).1.available with havail
  refine ⟨?_, ?_, ?_, ?_⟩
  · intro hall
    have h := monitorLoop_all_false avail interval N (List.range' 1 N)
      (fun n _ => hall n)
    rw [range'_one_countP_lt N hN] at h
    simpa [monitor_spot_availability, List.length_range'] using h
  · intro k hk1 hkN hfound hpre
    have hsplit : List.range' 1 N =
        List.range' 1 (k - 1) ++ (k :: List.range' (k + 1) (N - k)) := by
      have h1 : List.range' 1 (k - 1) ++ List.range' (1 + (k - 1)) (N - (k - 1)) =
          List.range' 1 ((N - (k - 1)) + (k - 1)) := List.range'_append_1 1 (k - 1) (N - (k - 1))
      have h2 : (N - (k - 1)) + (k - 1) = N := by omega
      have h3 : 1 + (k - 1) = k := by omega
      have h4 : N - (k - 1) = (N - k) + 1 := by omega
      rw [h2, h3, h4, List.range'_succ] at h1
      exact h1.symm
    have hprefalse : ∀ n ∈ List.range' 1 (k - 1), avail n = false := by
      intro n hn
      have := range'_one_mem_bounds hn
      exact hpre n (by omega) (by omega)
    have happ := monitorLoop_append avail interval N
      (List.range' 1 (k - 1)) (k :: List.range' (k + 1) (N - k)) hprefalse
    have hfd := monitorLoop_found_head avail interval N k
      (List.range' (k + 1) (N - k)) hfound
    have hcounts := monitorLoop_all_false avail interval N
      (List.range' 1 (k - 1)) hprefalse
    have hcp : (List.range' 1 (k - 1)).countP (fun n => decide (n < N)) =
        k - 1 := by
      rw [range'_one_countP_le 1 (k - 1) N (by omega)]
    rw [hcp] at hcounts
    have hmon : monitor_spot_availability gpu_type gpu_count probeAt interval N =
        ((monitorLoop avail interval N (List.range' 1 (k - 1))).1 ++
          [MonEvent.checkAt k], true) := by
      unfold monitor_spot_availability
      rw [← havail, hsplit, happ, hfd]
    rw [hmon]
    refine ⟨?_, ?_, rfl⟩
    · simp only [countChecks, List.countP_append] at hcounts ⊢
      have hlen : (List.range' 1 (k - 1)).length = k - 1 :=
        List.length_range' _ _ _
      rw [hlen] at hcounts
      simp [hcounts.1, List.countP_cons]
      omega
    · simp only [countSleeps, List.countP_append] at hcounts ⊢
      simp [hcounts.2.1, List.countP_cons]
  · intro e he
    exact monitorLoop_events avail interval N (List.range' 1 N) e he
  · exact monitorLoop_getLast avail interval N (List.range' 1 N)
      (range'_one_getLast N hN)

/-- C1 witness: with `N = 3` checks, an interval of 30 seconds and probes
that always answer no capacity, the monitor performs 3 checks, 2 sleeps and
reports not-found, and its trace ends with the third check. -/
theorem C1_monitor_attempt_accounting_witness :
    countChecks (monitor_spot_availability "B300" 1
        (fun _ _ _ => ProbeOutcome.ok false) 30 3).1 = 3 ∧
    countSleeps (monitor_spot_availability "B300" 1
        (fun _ _ _ => ProbeOutcome.ok false) 30 3).1 = 2 ∧
    (monitor_spot_availability "B300" 1
        (fun _ _ _ => ProbeOutcome.ok false) 30 3).2 = false :=
  (C1_monitor_attempt_accounting "B300" 1
      (fun _ _ _ => ProbeOutcome.ok false) 30 3 (by decide)).1
    (fun n => by decide)

/-!
## Resolver claims
-/

/-- C7 counterexample: the pair ("b300", 1) is not present in the fixed
lookup table (whose keys are the uppercase strings), yet the resolver does
not return NotFound for it — it returns the SKU of ("B300", 1), because the
implementation uppercases the kind before the table lookup. So it is not the
case that every pair absent from the fixed table yields NotFound. -/
theorem C7_resolver_counterexample :
    gpuMapping.lookup "b300" = none ∧
    get_instance_type_from_gpu_type_and_count "b300" 1 = "1B300.30V" ∧
    "1B300.30V" ≠ "" := by
  refine ⟨by decide, by decide, by decide⟩

/-- C7 (amended): the resolver is a pure deterministic total function; for
every (kind, count) whose UPPERCASED kind maps, in the fixed table, to a row
containing count, it returns that entry's SKU; for every (kind, count) whose
uppercased kind/count combination is absent from the table it returns
NotFound (the empty string), with unknown kind and unsupported count for a
known kind treated identically (both are simply a failed lookup). -/
theorem C7_resolver_amended (kind : String) (count : Nat) :
    (∀ row sku, gpuMapping.lookup (py_upper kind) = some row →
        row.lookup count = some sku →
        get_instance_type_from_gpu_type_and_count kind count = sku) ∧
    (((gpuMapping.lookup (py_upper kind)).getD []).lookup count = none →
        get_instance_type_from_gpu_type_and_count kind count = "") ∧
    get_instance_type_from_gpu_type_and_count kind count =
      get_instance_type_from_gpu_type_and_count kind count := by
  refine ⟨?_, ?_, rfl⟩
  · intro row sku hrow hsku
    unfold get_instance_type_from_gpu_type_and_count
    rw [hrow]
    simp [hsku]
  · intro h
    unfold get_instance_type_from_gpu_type_and_count
    rw [h]
    rfl

/-- C7 amended witness: the in-table pair ("B300", 2) resolves to its SKU,
and an absent combination ("B300", 3) resolves to NotFound. -/
theorem C7_resolver_amended_witness :
    get_instance_type_from_gpu_type_and_count "B300" 2 = "2B300.60V" ∧
    get_instance_type_from_gpu_type_and_count "B300" 3 = "" :=
  ⟨(C7_resolver_amended "B300" 2).1
      [(1, "1B300.30V"), (2, "2B300.60V"), (4, "4B300.120V"), (8, "8B300.240V")]
      "2B300.60V" (by decide) (by decide),
   (C7_resolver_amended "B300" 3).2.1 (by decide)⟩

/-- C10: the resolver is case-insensitive in the kind argument — resolving
any kind string gives the same result as resolving its uppercased form; in
particular the lowercase spelling "b300" resolves to the same SKU as the
uppercase table key "B300" rather than to NotFound. -/
theorem C10_resolver_case_insensitive (kind : String) (count : Nat) :
    get_instance_type_from_gpu_type_and_count kind count =
      get_instance_type_from_gpu_type_and_count (py_upper kind) count ∧
    get_instance_type_from_gpu_type_and_count "b300" 1 =
      get_instance_type_from_gpu_type_and_count "B300" 1 ∧
    get_instance_type_from_gpu_type_and_count "b300" 1 ≠ "" := by
  refine ⟨?_, by decide, by decide⟩
  unfold get_instance_type_from_gpu_type_and_count
  rw [py_upper_idem]

/-!
## Monitor behaviour on unresolvable shapes (C5)
-/

theorem check_spot_unavailable_of_unresolvable (gpu_type : String)
    (gpu_count : Nat) (location : Option String)
    (probe : String → String → ProbeOutcome)
    (h : get_instance_type_from_gpu_type_and_count gpu_type gpu_count = "") :
    (check_spot_availability gpu_type gpu_count location probe).1.available =
      false := by
  simp [check_spot_availability, h]

/-- C5 counterexample: ("XYZ", 3) resolves to NotFound, yet a monitor run
with a budget of 3 checks does not fail fast on its first attempt: it
performs all 3 availability checks and 2 interval sleeps (even with a probe
oracle that would report capacity everywhere) and ends reporting not-found,
rather than stopping after the first attempt with no sleep and an error
result. -/
theorem C5_monitor_unresolvable_counterexample :
    get_instance_type_from_gpu_type_and_count "XYZ" 3 = "" ∧
    countChecks (monitor_spot_availability "XYZ" 3
        (fun _ _ _ => ProbeOutcome.ok true) 30 3).1 = 3 ∧
    countSleeps (monitor_spot_availability "XYZ" 3
        (fun _ _ _ => ProbeOutcome.ok true) 30 3).1 = 2 ∧
    (monitor_spot_availability "XYZ" 3
        (fun _ _ _ => ProbeOutcome.ok true) 30 3).2 = false ∧
    ¬ countChecks (monitor_spot_availability "XYZ" 3
        (fun _ _ _ => ProbeOutcome.ok true) 30 3).1 = 1 ∧
    ¬ countSleeps (monitor_spot_availability "XYZ" 3
        (fun _ _ _ => ProbeOutcome.ok true) 30 3).1 = 0 := by
  refine ⟨by decide, by decide, by decide, by decide, by decide, by decide⟩

/-- C5 (amended): `monitor_spot_availability` does not fail fast on an
unresolvable (gpu_type, gpu_count): `check_spot_availability` reports such a
shape as simply not available, so the monitor performs its full budget of
`N` checks with `N - 1` interval sleeps, regardless of the probe oracle, and
reports not-found (timed out) rather than an error result. -/
theorem C5_monitor_unresolvable_amended (gpu_type : String) (gpu_count : Nat)
    (probeAt : Nat → String → String → ProbeOutcome) (interval N : Nat)
    (hN : 1 ≤ N)
    (hmiss : get_instance_type_from_gpu_type_and_count gpu_type gpu_count = "") :
    countChecks (monitor_spot_availability gpu_type gpu_count probeAt
        interval N).1 = N ∧
    countSleeps (monitor_spot_availability gpu_type gpu_count probeAt
        interval N).1 = N - 1 ∧
    (monitor_spot_availability gpu_type gpu_count probeAt interval N).2 =
      false := by
  have hall : ∀ n, (check_spot_availability gpu_type gpu_count none
      (probeAt n)).1.available = false :=
    fun n => check_spot_unavailable_of_unresolvable _ _ _ _ hmiss
  have h := monitorLoop_all_false
    (fun n => (check_spot_availability gpu_type gpu_count none
      (probeAt n)).1.available) interval N (List.range' 1 N)
    (fun n _ => hall n)
  rw [range'_one_countP_lt N hN] at h
  simpa [monitor_spot_availability, List.length_range'] using h

/-- C5 amended witness: at the unresolvable shape ("XYZ", 3) with a budget
of 2 checks, the monitor performs 2 checks and 1 sleep and reports
not-found. -/
theorem C5_monitor_unresolvable_amended_witness :
    countChecks (monitor_spot_availability "XYZ" 3
        (fun _ _ _ => ProbeOutcome.ok false) 10 2).1 = 2 ∧
    countSleeps (monitor_spot_availability "XYZ" 3
        (fun _ _ _ => ProbeOutcome.ok false) 10 2).1 = 1 ∧
    (monitor_spot_availability "XYZ" 3
        (fun _ _ _ => ProbeOutcome.ok false) 10 2).2 = false :=
  C5_monitor_unresolvable_amended "XYZ" 3
    (fun _ _ _ => ProbeOutcome.ok false) 10 2 (by decide) (by decide)

/-!
## Prober scan contract (C2)
-/

theorem scanLocations_all_not_found (probe : String → ProbeOutcome) :
    ∀ locs : List String, (∀ l ∈ locs, probe l ≠ ProbeOutcome.ok true) →
      scanLocations probe locs = (locs, none) := by
  intro locs
  induction locs with
  | nil => intro _; rfl
  | cons loc rest ih =>
    intro h
    have hloc : probe loc ≠ ProbeOutcome.ok true :=
      h loc (List.mem_cons_self _ _)
    have hrest := ih (fun l hl => h l (List.mem_cons_of_mem _ hl))
    cases hp : probe loc with
    | ok b =>
      cases b with
      | true => exact absurd hp hloc
      | false => simp [scanLocations, hp, hrest]
    | err => simp [scanLocations, hp, hrest]

theorem scanLocations_first_found (probe : String → ProbeOutcome) :
    ∀ (pre : List String) (loc : String) (post : List String),
      (∀ x ∈ pre, probe x ≠ ProbeOutcome.ok true) →
      probe loc = ProbeOutcome.ok true →
      scanLocations probe (pre ++ loc :: post) = (pre ++ [loc], some loc) := by
  intro pre
  induction pre with
  | nil =>
    intro loc post _ hloc
    simp [scanLocations, hloc]
  | cons x rest ih =>
    intro loc post hpre hloc
    have hx : probe x ≠ ProbeOutcome.ok true :=
      hpre x (List.mem_cons_self _ _)
    have h := ih loc post (fun y hy => hpre y (List.mem_cons_of_mem _ hy)) hloc
    cases hp : probe x with
    | ok b =>
      cases b with
      | true => exact absurd hp hx
      | false => simp [scanLocations, hp, h]
    | err => simp [scanLocations, hp, h]

theorem scanLocations_swallowErr (probe : String → ProbeOutcome) :
    ∀ locs : List String,
      scanLocations (swallowErr probe) locs = scanLocations probe locs := by
  intro locs
  induction locs with
  | nil => rfl
  | cons loc rest ih =>
    cases hp : probe loc with
    | ok b =>
      cases b with
      | true => simp [scanLocations, swallowErr, hp]
      | false => simp [scanLocations, swallowErr, hp, ih]
    | err => simp [scanLocations, swallowErr, hp, ih]

/-- C2: prober scan contract. For every probe oracle and every ordered list
of candidate locations, the scan loop of `check_spot_availability` attempts
the locations strictly in the given order: if no location answers available,
every location is attempted in order and the outcome is not-found; if some
location answers available, the scan attempts exactly the locations up to
and including the first such location and short-circuits with it; a
transport error at a location is treated exactly as "not available there"
(replacing errors by `false` answers changes nothing) and never propagates.
The same holds for `check_spot_availability` without a pinned location,
which scans `LOCATION_CODES`. -/
theorem C2_prober_scan_contract (probe : String → ProbeOutcome)
    (locs : List String) (gpu_type : String) (gpu_count : Nat)
    (probe2 : String → String → ProbeOutcome)
    (hres : get_instance_type_from_gpu_type_and_count gpu_type gpu_count ≠ "") :
    ((∀ l ∈ locs, probe l ≠ ProbeOutcome.ok true) →
        scanLocations probe locs = (locs, none)) ∧
    (∀ pre loc post, locs = pre ++ loc :: post →
        (∀ x ∈ pre, probe x ≠ ProbeOutcome.ok true) →
        probe loc = ProbeOutcome.ok true →
        scanLocations probe locs = (pre ++ [loc], some loc)) ∧
    (scanLocations (swallowErr probe) locs = scanLocations probe locs) ∧
    ((∀ l ∈ LOCATION_CODES,
          probe2 (get_instance_type_from_gpu_type_and_count gpu_type gpu_count)
            l ≠ ProbeOutcome.ok true) →
        check_spot_availability gpu_type gpu_count none probe2 =
          (⟨false, "",
            get_instance_type_from_gpu_type_and_count gpu_type gpu_count,
            gpu_type, gpu_count⟩, LOCATION_CODES)) ∧
    (∀ pre loc post, LOCATION_CODES = pre ++ loc :: post →
        (∀ x ∈ pre,
          probe2 (get_instance_type_from_gpu_type_and_count gpu_type gpu_count)
            x ≠ ProbeOutcome.ok true) →
        probe2 (get_instance_type_from_gpu_type_and_count gpu_type gpu_count)
          loc = ProbeOutcome.ok true →
        check_spot_availability gpu_type gpu_count none probe2 =
          (⟨true, loc,
            get_instance_type_from_gpu_type_and_count gpu_type gpu_count,
            gpu_type, gpu_count⟩, pre ++ [loc])) ∧
    (check_spot_availability gpu_type gpu_count none
        (fun t => swallowErr (probe2 t)) =
      check_spot_availability gpu_type gpu_count none probe2) := by
  refine ⟨scanLocations_all_not_found probe locs, ?_, ?_, ?_, ?_, ?_⟩
  · intro pre loc post heq hpre hloc
    rw [heq]
    exact scanLocations_first_found probe pre loc post hpre hloc
  · exact scanLocations_swallowErr probe locs
  · intro hall
    have hscan := scanLocations_all_not_found
      (probe2 (get_instance_type_from_gpu_type_and_count gpu_type gpu_count))
      LOCATION_CODES hall
    simp [check_spot_availability, hres, hscan]
  · intro pre loc post heq hpre hloc
    have hscan := scanLocations_first_found
      (probe2 (get_instance_type_from_gpu_type_and_count gpu_type gpu_count))
      pre loc post hpre hloc
    rw [← heq] at hscan
    simp [check_spot_availability, hres, hscan]
  · simp only [check_spot_availability, scanLocations_swallowErr]

/-- C2 witness: with candidate order [FIN-01, FIN-02, FIN-03] where only
FIN-03 has capacity, the whole list is attempted in order and the outcome
names FIN-03; and with FIN-01 raising a transport error and FIN-02
available, the outcome is found at FIN-02 after attempting exactly
[FIN-01, FIN-02]. -/
theorem C2_prober_scan_contract_witness :
    check_spot_availability "B300" 1 none
        (fun _ l => ProbeOutcome.ok (l = "FIN-03")) =
      (⟨true, "FIN-03", "1B300.30V", "B300", 1⟩,
       ["FIN-01", "FIN-02", "FIN-03"]) ∧
    check_spot_availability "B300" 1 none
        (fun _ l => if l = "FIN-01" then ProbeOutcome.err
          else ProbeOutcome.ok (l = "FIN-02")) =
      (⟨true, "FIN-02", "1B300.30V", "B300", 1⟩, ["FIN-01", "FIN-02"]) :=
  ⟨(C2_prober_scan_contract (fun _ => ProbeOutcome.ok false) [] "B300" 1
        (fun _ l => ProbeOutcome.ok (l = "FIN-03")) (by decide)).2.2.2.2.1
      ["FIN-01", "FIN-02"] "FIN-03" [] (by decide) (by decide) (by decide),
   (C2_prober_scan_contract (fun _ => ProbeOutcome.ok false) [] "B300" 1
        (fun _ l => if l = "FIN-01" then ProbeOutcome.err
          else ProbeOutcome.ok (l = "FIN-02")) (by decide)).2.2.2.2.1
      ["FIN-01"] "FIN-02" ["FIN-03"] (by decide) (by decide) (by decide)⟩

/-!
## Wait-loop helper lemmas (C3, C4)
-/

theorem waitLoop_step (reads : Nat → String) (timeout poll elapsed r s fuel : Nat)
    (hlt : elapsed < timeout) (hrun : reads r ≠ "running")
    (hterm : isTerminalError (reads r) = false) :
    waitLoop reads timeout poll elapsed r s (fuel + 1) =
      waitLoop reads timeout poll (elapsed + poll) (r + 1) (s + 1) fuel := by
  simp [waitLoop, hlt, hrun, hterm]

theorem waitLoop_advance (reads : Nat → String) (timeout poll : Nat) :
    ∀ fuel i k, i ≤ k → k - i ≤ fuel →
      (∀ j, i ≤ j → j < k →
        reads j ≠ "running" ∧ isTerminalError (reads j) = false) →
      (∀ j, i ≤ j → j < k → j * poll < timeout) →
      waitLoop reads timeout poll (i * poll) i i fuel =
        waitLoop reads timeout poll (k * poll) k k (fuel - (k - i)) := by
  intro fuel
  induction fuel with
  | zero =>
    intro i k hik hfuel _ _
    have h : i = k := by omega
    subst h
    simp
  | succ f ih =>
    intro i k hik hfuel hnt hlt
    by_cases hik2 : i = k
    · subst hik2
      simp
    · have hiklt : i < k := by omega
      have h1 := hnt i le_rfl hiklt
      have h2 := hlt i le_rfl hiklt
      rw [waitLoop_step reads timeout poll _ i i f h2 h1.1 h1.2]
      have hmul : i * poll + poll = (i + 1) * poll := by ring
      rw [hmul]
      have h3 := ih (i + 1) k (by omega) (by omega)
        (fun j hj hj2 => hnt j (by omega) hj2)
        (fun j hj hj2 => hlt j (by omega) hj2)
      rw [h3]
      congr 1
      omega

theorem ceilDiv_mul_ge (t p : Nat) (hp : 0 < p) :
    t ≤ ((t + p - 1) / p) * p := by
  have h := Nat.div_add_mod (t + p - 1) p
  have hr : (t + p - 1) % p < p := Nat.mod_lt _ hp
  rw [Nat.mul_comm]
  omega

theorem lt_ceilDiv_mul_lt (t p j : Nat) (hp : 0 < p)
    (hj : j < (t + p - 1) / p) : j * p < t := by
  have h := Nat.div_add_mod (t + p - 1) p
  have hr : (t + p - 1) % p < p := Nat.mod_lt _ hp
  have hmul : (j + 1) * p ≤ ((t + p - 1) / p) * p :=
    Nat.mul_le_mul_right p hj
  rw [Nat.succ_mul] at hmul
  rw [Nat.mul_comm ((t + p - 1) / p) p] at hmul
  omega

theorem ceilDiv_le (t p : Nat) (hp : 0 < p) : (t + p - 1) / p ≤ t := by
  rcases Nat.eq_zero_or_pos t with ht | ht
  · subst ht
    simp [Nat.div_eq_of_lt (by omega : p - 1 < p)]
  · have h1 : t + p - 1 ≤ t * p + (p - 1) := by
      have : t ≤ t * p := Nat.le_mul_of_pos_right t hp
      omega
    have h2 : (t + p - 1) / p ≤ (t * p + (p - 1)) / p :=
      Nat.div_le_div_right h1
    have h3 : (t * p + (p - 1)) / p ≤ t := by
      rw [Nat.mul_comm t p, Nat.mul_add_div hp]
      simp [Nat.div_eq_of_lt (show p - 1 < p by omega)]
    exact le_trans h2 h3

/-- C3: awaitReady timeout boundary. `wait_for_ready` tracks elapsed time by
adding the poll interval once per iteration, so with timeout `T > 0` and
poll interval `P > 0` and no terminal state among the first
`ceil(T / P)` reads, the run performs exactly `ceil(T / P)` reads and
`ceil(T / P)` sleeps and stops with TimedOut, performing no further read; in
particular with `T = 20` and `P = 10` (the witness) exactly 2 reads and 2
sleeps occur and no 3rd read is performed. -/
theorem C3_wait_timeout_boundary (reads : Nat → String) (timeout poll : Nat)
    (ht : 0 < timeout) (hp : 0 < poll)
    (hnt : ∀ i, i < (timeout + poll - 1) / poll →
      reads i ≠ "running" ∧ isTerminalError (reads i) = false) :
    wait_for_ready reads timeout poll =
      ⟨WaitOutcome.timedOut, (timeout + poll - 1) / poll,
        (timeout + poll - 1) / poll⟩ := by
  have hmle : (timeout + poll - 1) / poll ≤ timeout := ceilDiv_le timeout poll hp
  have hadv := waitLoop_advance reads timeout poll (timeout + 1) 0
    ((timeout + poll - 1) / poll) (Nat.zero_le _) (by omega)
    (fun j _ hj => hnt j hj)
    (fun j _ hj => lt_ceilDiv_mul_lt timeout poll j hp hj)
  rw [Nat.zero_mul] at hadv
  unfold wait_for_ready
  rw [hadv]
  have hf : timeout + 1 - ((timeout + poll - 1) / poll - 0) =
      (timeout - (timeout + poll - 1) / poll) + 1 := by
    rw [Nat.sub_zero, Nat.succ_sub hmle]
  rw [hf]
  have hstop : ¬ ((timeout + poll - 1) / poll * poll < timeout) := by
    have := ceilDiv_mul_ge timeout poll hp
    omega
  simp [waitLoop, hstop]

/-- C3 witness: with a 20-second timeout, a 10-second poll interval and an
instance that never reaches a terminal state, exactly 2 reads and 2 sleeps
occur and the loop stops with TimedOut (no 3rd read). -/
theorem C3_wait_timeout_boundary_witness :
    wait_for_ready (fun _ => "pending") 20 10 =
      ⟨WaitOutcome.timedOut, 2, 2⟩ :=
  C3_wait_timeout_boundary (fun _ => "pending") 20 10 (by decide) (by decide)
    (fun i _ => ⟨by simp, rfl⟩)

/-- C4: awaitReady terminal-state handling. If the first `k` reads are
neither running nor terminal-failure (each causing one sleep and a re-read)
and the k-th (0-based) read occurs within the timeout budget, then: if read
`k` reports running, the run returns success immediately with exactly
`k + 1` reads and `k` sleeps (no further sleep or read); and if read `k`
reports a state in the set checked by `isTerminalError` (error, failed,
terminated), the run raises the error-state failure immediately with exactly
`k + 1` reads and `k` sleeps. -/
theorem C4_wait_terminal_states (reads : Nat → String) (timeout poll k : Nat)
    (hp : 0 < poll) (hk : k * poll < timeout)
    (hpre : ∀ j, j < k →
      reads j ≠ "running" ∧ isTerminalError (reads j) = false) :
    (reads k = "running" →
      wait_for_ready reads timeout poll =
        ⟨WaitOutcome.ready k, k + 1, k⟩) ∧
    (isTerminalError (reads k) = true →
      wait_for_ready reads timeout poll =
        ⟨WaitOutcome.errorState (reads k), k + 1, k⟩) := by
  have hkle : k ≤ timeout := by
    have : k ≤ k * poll := Nat.le_mul_of_pos_right k hp
    omega
  have hadv := waitLoop_advance reads timeout poll (timeout + 1) 0 k
    (Nat.zero_le k) (by omega)
    (fun j _ hj => hpre j hj)
    (fun j _ hj => by
      have : j * poll ≤ k * poll := Nat.mul_le_mul_right poll (by omega)
      omega)
  rw [Nat.zero_mul] at hadv
  obtain ⟨f, hf⟩ : ∃ f, timeout + 1 - (k - 0) = f + 1 :=
    ⟨timeout - k, by omega⟩
  rw [hf] at hadv
  constructor
  · intro hrun
    unfold wait_for_ready
    rw [hadv]
    simp [waitLoop, hk, hrun]
  · intro hterm
    have hnrun : reads k ≠ "running" := by
      intro h
      rw [h] at hterm
      simp [isTerminalError] at hterm
    unfold wait_for_ready
    rw [hadv]
    simp [waitLoop, hk, hnrun, hterm]

/-- C4 witness: reads [pending, pending, running] with poll 5s and timeout
30s succeed after exactly 3 reads and 2 sleeps; reads [pending, error] fail
with the error state immediately after the second read (2 reads, 1
sleep). -/
theorem C4_wait_terminal_states_witness :
    wait_for_ready (fun i => if i < 2 then "pending" else "running") 30 5 =
      ⟨WaitOutcome.ready 2, 3, 2⟩ ∧
    wait_for_ready (fun i => if i = 0 then "pending" else "error") 30 5 =
      ⟨WaitOutcome.errorState "error", 2, 1⟩ :=
  ⟨(C4_wait_terminal_states
      (fun i => if i < 2 then "pending" else "running") 30 5 2
      (by decide) (by decide) (by decide)).1 (by decide),
   (C4_wait_terminal_states
      (fun i => if i = 0 then "pending" else "error") 30 5 1
      (by decide) (by decide) (by decide)).2 (by decide)⟩

/-!
## Create preconditions (C6), hostname default (C8), delete confirmation (C9)
-/

/-- C6: create preconditions fail fast. If the requested (gpu_type,
gpu_count) pair (after config defaults) does not resolve to an instance
type, `create_instance` fails with the unknown-resource-shape error having
performed no remote call at all; if it resolves but the account's SSH key
list is empty, it fails with the no-credential error having performed only
the SSH-key listing call; and in every failing run, no `instances.create`
call is ever issued to the provider. -/
theorem C6_create_preconditions (dft : DefaultsCfg) (ssh_keys : List String)
    (gpu_type0 : Option String) (gpu_count0 : Option Nat)
    (location0 image0 hostname0 : Option String)
    (volume_ids : Option (List String)) (script_id : Option String)
    (is_spot : Bool) (description : String) :
    (get_instance_type_from_gpu_type_and_count
        (py_or_str gpu_type0 dft.gpu_type)
        (py_or_nat gpu_count0 dft.gpu_count) = "" →
      (create_instance dft ssh_keys gpu_type0 gpu_count0 location0 image0
          hostname0 volume_ids script_id is_spot description).1 =
        Except.error ("Unknown instance type for " ++
          py_or_str gpu_type0 dft.gpu_type ++ " x" ++
          toString (py_or_nat gpu_count0 dft.gpu_count)) ∧
      (create_instance dft ssh_keys gpu_type0 gpu_count0 location0 image0
          hostname0 volume_ids script_id is_spot description).2 = []) ∧
    (get_instance_type_from_gpu_type_and_count
        (py_or_str gpu_type0 dft.gpu_type)
        (py_or_nat gpu_count0 dft.gpu_count) ≠ "" → ssh_keys = [] →
      (create_instance dft ssh_keys gpu_type0 gpu_count0 location0 image0
          hostname0 volume_ids script_id is_spot description).1 =
        Except.error
          "No SSH keys found. Please add one in the Verda console." ∧
      (create_instance dft ssh_keys gpu_type0 gpu_count0 location0 image0
          hostname0 volume_ids script_id is_spot description).2 =
        [ApiCall.listSSHKeys]) ∧
    ((∃ msg, (create_instance dft ssh_keys gpu_type0 gpu_count0 location0
        image0 hostname0 volume_ids script_id is_spot description).1 =
          Except.error msg) →
      ∀ kw, ApiCall.createInstance kw ∉
        (create_instance dft ssh_keys gpu_type0 gpu_count0 location0 image0
          hostname0 volume_ids script_id is_spot description).2) := by
  refine ⟨?_, ?_, ?_⟩
  · intro hmiss
    refine ⟨?_, ?_⟩ <;> simp [create_instance, hmiss]
  · intro hres hkeys
    subst hkeys
    refine ⟨?_, ?_⟩ <;> simp [create_instance, hres]
  · rintro ⟨msg, hmsg⟩ kw
    by_cases h1 : get_instance_type_from_gpu_type_and_count
        (py_or_str gpu_type0 dft.gpu_type)
        (py_or_nat gpu_count0 dft.gpu_count) = ""
    · simp [create_instance, h1]
    · by_cases h2 : ssh_keys.isEmpty
      · simp [create_instance, h1, h2]
      · exfalso
        simp [create_instance, h1, h2] at hmsg

/-- C6 witness: for the unresolvable shape ("XYZ", 3) the create fails with
the unknown-resource-shape error and an empty remote-call trace, and for a
resolvable shape with no SSH keys it fails after only the key-listing
call. -/
theorem C6_create_preconditions_witness :
    (create_instance ⟨"B300", 1, "FIN-03", "img", "spot-gpu"⟩ ["key-1"]
        (some "XYZ") (some 3) none none none none none true "d").1 =
      Except.error "Unknown instance type for XYZ x3" ∧
    (create_instance ⟨"B300", 1, "FIN-03", "img", "spot-gpu"⟩ ["key-1"]
        (some "XYZ") (some 3) none none none none none true "d").2 = [] ∧
    (create_instance ⟨"B300", 1, "FIN-03", "img", "spot-gpu"⟩ []
        none none none none none none none true "d").2 =
      [ApiCall.listSSHKeys] :=
  ⟨((C6_create_preconditions ⟨"B300", 1, "FIN-03", "img", "spot-gpu"⟩
      ["key-1"] (some "XYZ") (some 3) none none none none none true "d").1
      (by decide)).1,
   ((C6_create_preconditions ⟨"B300", 1, "FIN-03", "img", "spot-gpu"⟩
      ["key-1"] (some "XYZ") (some 3) none none none none none true "d").1
      (by decide)).2,
   ((C6_create_preconditions ⟨"B300", 1, "FIN-03", "img", "spot-gpu"⟩
      [] none none none none none none none true "d").2.1
      (by decide) rfl).2⟩

/-- C8 counterexample: at the client layer, two create calls with identical
arguments and an omitted hostname both produce the hostname
"spot-gpu-1" — the generated hostname combines the configured prefix with
the GPU COUNT, which does not vary between calls, so repeated
otherwise-identical create calls do NOT produce distinct hostnames. -/
theorem C8_hostname_counterexample :
    (create_instance ⟨"B300", 1, "FIN-03", "img", "spot-gpu"⟩ ["key-1"]
        none none none none none none none true "d").1.map
      CreateKwargs.hostname = Except.ok "spot-gpu-1" ∧
    (create_instance ⟨"B300", 1, "FIN-03", "img", "spot-gpu"⟩ ["key-1"]
        none none none none none none none true "d").1.map
      CreateKwargs.hostname = Except.ok "spot-gpu-1" ∧
    ¬ ("spot-gpu-1" ≠ "spot-gpu-1") :=
  ⟨rfl, rfl, fun h => h rfl⟩

/-- C8 (amended): when the caller omits the hostname, the client-level
`create_instance` defaults it to the configured prefix joined with the GPU
count — a value identical across repeated otherwise-identical calls — while
the `deploy_spot_instance` tool defaults it to the prefix joined with a
second-resolution wall-clock timestamp, which distinguishes calls whose
timestamp strings differ (and only those). -/
theorem C8_hostname_default_amended (dft : DefaultsCfg)
    (ssh_keys : List String) (gpu_type0 : Option String)
    (gpu_count0 : Option Nat) (location0 image0 : Option String)
    (volume_ids : Option (List String)) (script_id : Option String)
    (is_spot : Bool) (description : String) :
    (∀ kw, (create_instance dft ssh_keys gpu_type0 gpu_count0 location0
        image0 none volume_ids script_id is_spot description).1 =
          Except.ok kw →
      kw.hostname =
        dft.hp ++ "-" ++ toString (py_or_nat gpu_count0 dft.gpu_count)) ∧
    (∀ ts, deploy_default_hostname dft.hp ts none = dft.hp ++ "-" ++ ts) ∧
    (∀ ts1 ts2, ts1 ≠ ts2 →
      deploy_default_hostname dft.hp ts1 none ≠
        deploy_default_hostname dft.hp ts2 none) := by
  refine ⟨?_, fun ts => rfl, ?_⟩
  · intro kw hkw
    by_cases h1 : get_instance_type_from_gpu_type_and_count
        (py_or_str gpu_type0 dft.gpu_type)
        (py_or_nat gpu_count0 dft.gpu_count) = ""
    · simp [create_instance, h1] at hkw
    · by_cases h2 : ssh_keys.isEmpty
      · simp [create_instance, h1, h2] at hkw
      · simp [create_instance, h1, h2] at hkw
        rw [← hkw]
        rfl
  · intro ts1 ts2 hne h
    apply hne
    have hd := congrArg String.data h
    simp only [deploy_default_hostname, py_or_str, String.data_append,
      List.append_assoc] at hd
    have hd2 := List.append_cancel_left hd
    have hd3 := List.append_cancel_left hd2
    cases ts1
    cases ts2
    exact congrArg String.mk hd3

/-- C8 amended witness: with the hostname omitted, prefix "spot-gpu" and
gpu_count 4, the client-generated hostname is "spot-gpu-4", and the deploy
tool with timestamp "20260101-120000" generates
"spot-gpu-20260101-120000". -/
theorem C8_hostname_default_amended_witness :
    (create_instance ⟨"B300", 1, "FIN-03", "img", "spot-gpu"⟩ ["key-1"]
        none (some 4) none none none none none true "d").1.map
      CreateKwargs.hostname = Except.ok "spot-gpu-4" ∧
    deploy_default_hostname "spot-gpu" "20260101-120000" none =
      "spot-gpu-20260101-120000" := by
  constructor
  · have hcreate : (create_instance ⟨"B300", 1, "FIN-03", "img", "spot-gpu"⟩
        ["key-1"] none (some 4) none none none none none true "d").1 =
        Except.ok
          { instance_type := "4B300.120V", image := "img",
            hostname := "spot-gpu-4", description := "d",
            ssh_key_ids := ["key-1"], location := "FIN-03", is_spot := true,
            existing_volumes := none, startup_script_id := none } := rfl
    have h := (C8_hostname_default_amended
      ⟨"B300", 1, "FIN-03", "img", "spot-gpu"⟩ ["key-1"] none (some 4)
      none none none none true "d").1 _ hcreate
    rw [hcreate]
    exact congrArg Except.ok (h.trans rfl)
  · exact ((C8_hostname_default_amended
      ⟨"B300", 1, "FIN-03", "img", "spot-gpu"⟩ ["key-1"] none (some 4)
      none none none none true "d").2.1 "20260101-120000").trans rfl

/-- C9: the delete tool requires explicit confirmation at the boundary.
With `confirm = False` (the default) it performs no provider API call and
returns the safety-check message; and the provider delete action appears in
the call trace if and only if `confirm = True` was supplied. -/
theorem C9_delete_confirmation (instance_id : String) :
    ((delete_instance instance_id false).2 = [] ∧
      (delete_instance instance_id false).1 =
        "**Safety Check**: To delete an instance, you must set confirm=True.\n"
          ++ "Are you sure you want to delete instance `" ++ instance_id ++
          "`?") ∧
    (∀ confirm : Bool,
      ApiCall.instanceAction instance_id "delete" ∈
          (delete_instance instance_id confirm).2 ↔ confirm = true) := by
  refine ⟨⟨rfl, rfl⟩, ?_⟩
  intro confirm
  cases confirm
  · simp [delete_instance]
  · simp [delete_instance]

/-- C9 witness: deleting "inst-1" without confirmation performs no API
call; with confirmation, the provider delete action is issued. -/
theorem C9_delete_confirmation_witness :
    (delete_instance "inst-1" false).2 = [] ∧
    ApiCall.instanceAction "inst-1" "delete" ∈
      (delete_instance "inst-1" true).2 :=
  ⟨(C9_delete_confirmation "inst-1").1.1,
   ((C9_delete_confirmation "inst-1").2 true).mpr rfl⟩

end VerdaMcp
